import Mathlib

set_option maxRecDepth 20000

/-!
Verification of the AI Caption Coach request-handling core, a shallow
embedding of the route handler in src/src/app/page.tsx. The handler
validates a multipart form, builds a mode-specific prompt, calls the
OpenAI chat API through a bounded retry loop, parses the reply against a
fixed JSON schema, issues at most one corrective re-prompt, and falls
back to static canned content. The provider is modelled as an oracle
giving the outcome of each raw attempt of each call.
-/

namespace AICaption

/-- Map a function that can fail over a list, failing the whole list on the
first failure. This is the translation of a .map whose body can throw. -/
def mapMOpt {α β : Type} (f : α → Option β) : List α → Option (List β)
  | [] => some []
  | a :: as =>
    match f a with
    | none => none
    | some b =>
      match mapMOpt f as with
      | none => none
      | some bs => some (b :: bs)

theorem mapMOpt_length {α β : Type} (f : α → Option β) :
    ∀ (l : List α) (l2 : List β), mapMOpt f l = some l2 → l2.length = l.length := by
  intro l
  induction l with
  | nil =>
    intro l2 h
    simp [mapMOpt] at h
    simp [← h]
  | cons a as ih =>
    intro l2 h
    simp only [mapMOpt] at h
    cases hfa : f a with
    | none => rw [hfa] at h; exact absurd h (by simp)
    | some b =>
      rw [hfa] at h
      cases hrest : mapMOpt f as with
      | none => rw [hrest] at h; exact absurd h (by simp)
      | some bs =>
        rw [hrest] at h
        have hb := ih bs hrest
        simp at h
        simp [← h, List.length_cons, hb]

/-! ## Model of the JavaScript Number(string) conversion

The handler converts the maxChars form field with Number(raw). We model
the ECMAScript StringNumericLiteral grammar exactly, then round the
exact mathematical value of the literal to the nearest binary64 value
(ties to even, overflow to infinity), as the conversion specifies; the
rounded value is held as the exact rational it denotes. So a literal
such as 40.000000000000000001 converts to exactly 40, an integer, as it
does in JavaScript. -/

/-- A JavaScript number as produced by Number(string): NaN, an infinity,
or a finite value (held exactly). -/
inductive JSNum
  | nan
  | inf
  | neginf
  | q (v : ℚ)
  deriving DecidableEq

/-- The WhiteSpace and LineTerminator code points that Number(string)
strips from both ends. -/
def jsWhitespaceChars : List Char :=
  [' ', '\t', '\n', '\r', '\x0b', '\x0c',
   '\u00a0', '\u1680', '\u2000', '\u2001', '\u2002', '\u2003', '\u2004',
   '\u2005', '\u2006', '\u2007', '\u2008', '\u2009', '\u200a',
   '\u2028', '\u2029', '\u202f', '\u205f', '\u3000', '\ufeff']

def jsIsWs (c : Char) : Bool := jsWhitespaceChars.contains c

def jsTrimEnds (cs : List Char) : List Char :=
  ((cs.dropWhile jsIsWs).reverse.dropWhile jsIsWs).reverse

/-- The JS String.prototype.trim: strip the WhiteSpace and
LineTerminator set from both ends, the same set the Number conversion
strips. The source calls .trim() on guidance and on provider text. -/
def jsTrim (s : String) : String := String.mk (jsTrimEnds s.data)

/-- The JS String.prototype.toLowerCase on the ASCII range; the allowed
tones are ASCII and non-ASCII case mapping is not exercised by any
claim. -/
def jsToLower (s : String) : String := String.mk (s.data.map Char.toLower)

def hexDigitVal (c : Char) : Option Nat :=
  if c.isDigit then some (c.toNat - 48)
  else if 'a' ≤ c ∧ c ≤ 'f' then some (c.toNat - 87)
  else if 'A' ≤ c ∧ c ≤ 'F' then some (c.toNat - 55)
  else none

def octDigitVal (c : Char) : Option Nat :=
  if '0' ≤ c ∧ c ≤ '7' then some (c.toNat - 48) else none

def binDigitVal (c : Char) : Option Nat :=
  if c = '0' ∨ c = '1' then some (c.toNat - 48) else none

def decDigitVal (c : Char) : Option Nat :=
  if c.isDigit then some (c.toNat - 48) else none

def digitsVal (base : Nat) (ds : List Nat) : Nat :=
  ds.foldl (fun acc d => acc * base + d) 0

/-- A non-decimal integer literal such as 0x28: at least one digit of the
radix, no sign allowed. -/
def parseRadix (f : Char → Option Nat) (base : Nat) (cs : List Char) : Option JSNum :=
  match cs with
  | [] => none
  | _ =>
    match mapMOpt f cs with
    | some ds => some (.q ((digitsVal base ds : Nat) : ℚ))
    | none => none

/-- The exact value of a decimal literal with integer digits, fraction
digits and a signed exponent: the digits over ten to the fraction
length, scaled by ten to the exponent, assembled as one exact
fraction. -/
def decLitVal (ip fp : List Nat) (e : Int) : ℚ :=
  mkRat ((digitsVal 10 (ip ++ fp) : Nat) * 10 ^ e.toNat)
        (10 ^ (fp.length + (-e).toNat))

def expDigits (negSign : Bool) (ds : List Char) : Option Int :=
  match ds with
  | [] => none
  | _ =>
    match mapMOpt decDigitVal ds with
    | some vs =>
      some (if negSign then -((digitsVal 10 vs : Nat) : Int) else ((digitsVal 10 vs : Nat) : Int))
    | none => none

/-- The optional ExponentPart of a StrDecimalLiteral; an empty remainder
means no exponent. The whole remainder must be the exponent. -/
def parseExpPart : List Char → Option Int
  | [] => some 0
  | c :: rest =>
    if c = 'e' ∨ c = 'E' then
      match rest with
      | '+' :: ds => expDigits false ds
      | '-' :: ds => expDigits true ds
      | ds => expDigits false ds
    else none

/-- An unsigned StrDecimalLiteral: digits, optional fraction, optional
exponent, matched against the whole input. -/
def parseDecLit (cs : List Char) : Option ℚ :=
  let ip := cs.takeWhile (fun c => c.isDigit)
  let r1 := cs.dropWhile (fun c => c.isDigit)
  match r1 with
  | '.' :: r2 =>
    let fp := r2.takeWhile (fun c => c.isDigit)
    let r3 := r2.dropWhile (fun c => c.isDigit)
    if ip.isEmpty ∧ fp.isEmpty then none
    else
      match parseExpPart r3 with
      | some e =>
        match mapMOpt decDigitVal ip, mapMOpt decDigitVal fp with
        | some ipd, some fpd => some (decLitVal ipd fpd e)
        | _, _ => none
      | none => none
  | _ =>
    if ip.isEmpty then none
    else
      match parseExpPart r1 with
      | some e =>
        match mapMOpt decDigitVal ip with
        | some ipd => some (decLitVal ipd [] e)
        | none => none
      | none => none

def jsNegate : JSNum → JSNum
  | .q v => .q (-v)
  | .inf => .neginf
  | .neginf => .inf
  | .nan => .nan

/-- The number of binary digits of a natural number, driven by a fuel
that the number itself always covers. -/
def bitsFuel : Nat → Nat → Nat
  | 0, _ => 0
  | Nat.succ fuel, n => if n = 0 then 0 else bitsFuel fuel (n / 2) + 1

def natBits (n : Nat) : Nat := bitsFuel n n

/-- The floor of the base-two logarithm of a positive rational, from
the bit lengths of its numerator and denominator. -/
def ratFloorLog2 (q : ℚ) : Int :=
  let n := q.num.toNat
  let d := q.den
  let a := natBits n - 1
  let b := natBits d - 1
  if d * 2 ^ a ≤ n * 2 ^ b then (a : Int) - (b : Int) else (a : Int) - (b : Int) - 1

/-- The nearest integer to the fraction a over b, ties to even. -/
def roundHalfEven (a b : Nat) : Nat :=
  let t := a / b
  let r := a % b
  if 2 * r < b then t
  else if b < 2 * r then t + 1
  else if t % 2 = 0 then t else t + 1

/-- Round a positive rational to the nearest binary64 value: scale to a
53-bit mantissa (or to the fixed subnormal scale below the normal
range), round the scaled mantissa to the nearest integer with ties to
even, and overflow to infinity at two to the 1024. -/
def fitDoublePos (q : ℚ) : JSNum :=
  let n := q.num.toNat
  let d := q.den
  let L := ratFloorLog2 q
  let scale : Int := if L < -1022 then -1074 else L - 52
  if 0 ≤ scale then
    let m := roundHalfEven n (d * 2 ^ scale.toNat)
    let v := m * 2 ^ scale.toNat
    if 2 ^ 1024 ≤ v then JSNum.inf else .q (v : ℚ)
  else
    let m := roundHalfEven (n * 2 ^ (-scale).toNat) d
    .q (mkRat (m : Int) (2 ^ (-scale).toNat))

/-- Binary64 rounding of an exact rational: round to nearest, ties to
even; the rounding is symmetric, so a negative value goes through its
magnitude, and negative zero is identified with zero (the handler only
compares and tests integrality, where the two behave alike). -/
def fitDouble (v : ℚ) : JSNum :=
  if v = 0 then .q 0
  else if 0 < v then fitDoublePos v
  else jsNegate (fitDoublePos (-v))

/-- The rounding step of the conversion: a finite exact literal value is
rounded to its binary64 value; NaN and the infinities stand. -/
def jsApplyRounding : JSNum → JSNum
  | .q v => fitDouble v
  | j => j

def parseUnsignedDec (cs : List Char) : Option JSNum :=
  if cs = ['I', 'n', 'f', 'i', 'n', 'i', 't', 'y'] then some .inf
  else (parseDecLit cs).map JSNum.q

def parseSignedDec : List Char → Option JSNum
  | '+' :: cs => parseUnsignedDec cs
  | '-' :: cs => (parseUnsignedDec cs).map jsNegate
  | cs => parseUnsignedDec cs

def parseStrNum : List Char → Option JSNum
  | '0' :: 'x' :: rest => parseRadix hexDigitVal 16 rest
  | '0' :: 'X' :: rest => parseRadix hexDigitVal 16 rest
  | '0' :: 'o' :: rest => parseRadix octDigitVal 8 rest
  | '0' :: 'O' :: rest => parseRadix octDigitVal 8 rest
  | '0' :: 'b' :: rest => parseRadix binDigitVal 2 rest
  | '0' :: 'B' :: rest => parseRadix binDigitVal 2 rest
  | cs => parseSignedDec cs

/-- The JavaScript Number(s) conversion on strings: trim the JS
whitespace, the empty remainder is 0, otherwise match the
StrNumericLiteral grammar and round the exact literal value to its
binary64 value, and NaN when nothing matches. All major engines round
the full literal this way; the latitude ECMAScript grants past twenty
significant digits is not exercised by them. -/
def jsNumber (s : String) : JSNum :=
  match jsTrimEnds s.data with
  | [] => .q 0
  | c :: rest =>
    match parseStrNum (c :: rest) with
    | some v => jsApplyRounding v
    | none => .nan

/-! ## Model of JSON.parse

The payload parsers decode the raw provider text with JSON.parse. We
model the JSON grammar of ECMA-404 with an executable parser over the
character list; numbers are held as exact rationals (binary64 rounding
abstracted, irrelevant here because the schema only accepts strings),
and a \\u escape denoting a lone surrogate is mapped to the null scalar
(Lean strings hold scalar values only; no claim depends on it). -/

/-- A parsed JSON value. Object fields are kept in source order with
duplicates; property lookup takes the last occurrence, as JSON.parse
does. -/
inductive JValue
  | jnull
  | jbool (b : Bool)
  | jnum (v : ℚ)
  | jstr (s : String)
  | jarr (items : List JValue)
  | jobj (fields : List (String × JValue))

def jsonWs (c : Char) : Bool :=
  c = ' ' ∨ c = '\t' ∨ c = '\n' ∨ c = '\r'

def skipWsJson (cs : List Char) : List Char :=
  cs.dropWhile jsonWs

def jsonUnescapeChar (c : Char) : Option Char :=
  if c = '"' then some '"'
  else if c = '\\' then some '\\'
  else if c = '/' then some '/'
  else if c = 'b' then some '\x08'
  else if c = 'f' then some '\x0c'
  else if c = 'n' then some '\n'
  else if c = 'r' then some '\r'
  else if c = 't' then some '\t'
  else none

/-- The body of a JSON string after the opening quote: the decoded
characters and the remainder after the closing quote. -/
def parseJStringChars : List Char → Option (List Char × List Char)
  | [] => none
  | '"' :: rest => some ([], rest)
  | '\\' :: 'u' :: a :: b :: c :: d :: rest =>
    (match hexDigitVal a, hexDigitVal b, hexDigitVal c, hexDigitVal d with
     | some ha, some hb, some hc, some hd =>
       match parseJStringChars rest with
       | some (s, r) => some (Char.ofNat (((ha * 16 + hb) * 16 + hc) * 16 + hd) :: s, r)
       | none => none
     | _, _, _, _ => none)
  | '\\' :: e :: rest =>
    (match jsonUnescapeChar e with
     | some ch =>
       match parseJStringChars rest with
       | some (s, r) => some (ch :: s, r)
       | none => none
     | none => none)
  | c :: rest =>
    if c.toNat < 32 then none
    else
      match parseJStringChars rest with
      | some (s, r) => some (c :: s, r)
      | none => none

def charsToDigits (cs : List Char) : List Nat :=
  cs.map (fun c => c.toNat - 48)

/-- One or more exponent digits of a JSON number, signed by the caller,
consuming the digits and returning the remainder. -/
def parseJExpDigits (negSign : Bool) (ds : List Char) : Option (Int × List Char) :=
  let dd := ds.takeWhile Char.isDigit
  let rest := ds.dropWhile Char.isDigit
  if dd.isEmpty then none
  else
    let n : Int := (digitsVal 10 (charsToDigits dd) : Nat)
    some (if negSign then -n else n, rest)

/-- The optionally signed digits after the exponent marker of a JSON
number. -/
def parseJExpSigned : List Char → Option (Int × List Char)
  | '+' :: ds => parseJExpDigits false ds
  | '-' :: ds => parseJExpDigits true ds
  | ds => parseJExpDigits false ds

/-- The optional exponent of a JSON number, consuming its digits and
returning the remainder. -/
def parseJExp (cs : List Char) : Option (Int × List Char) :=
  match cs with
  | 'e' :: rest => parseJExpSigned rest
  | 'E' :: rest => parseJExpSigned rest
  | _ => some (0, cs)

/-- The unsigned part of a JSON number: an integer part without a
superfluous leading zero, an optional fraction, an optional exponent. -/
def parseJNumMag (cs : List Char) : Option (ℚ × List Char) :=
  let ip := cs.takeWhile Char.isDigit
  let r1 := cs.dropWhile Char.isDigit
  if ip.isEmpty then none
  else if 1 < ip.length ∧ ip.head? = some '0' then none
  else
    match r1 with
    | '.' :: r2 =>
      let fp := r2.takeWhile Char.isDigit
      let r3 := r2.dropWhile Char.isDigit
      if fp.isEmpty then none
      else
        match parseJExp r3 with
        | some (e, r4) => some (decLitVal (charsToDigits ip) (charsToDigits fp) e, r4)
        | none => none
    | _ =>
      match parseJExp r1 with
      | some (e, r2) => some (decLitVal (charsToDigits ip) [] e, r2)
      | none => none

def parseJNumber (cs : List Char) : Option (ℚ × List Char) :=
  match cs with
  | '-' :: rest => (parseJNumMag rest).map (fun p => (-p.1, p.2))
  | _ => parseJNumMag cs

mutual

/-- A JSON value, fuel-bounded on nesting; returns the value and the
remainder of the input. -/
def parseJValue : Nat → List Char → Option (JValue × List Char)
  | 0, _ => none
  | Nat.succ fuel, cs =>
    match skipWsJson cs with
    | 'n' :: 'u' :: 'l' :: 'l' :: rest => some (.jnull, rest)
    | 't' :: 'r' :: 'u' :: 'e' :: rest => some (.jbool true, rest)
    | 'f' :: 'a' :: 'l' :: 's' :: 'e' :: rest => some (.jbool false, rest)
    | '"' :: rest =>
      (match parseJStringChars rest with
       | some (s, r) => some (.jstr (String.mk s), r)
       | none => none)
    | '[' :: rest =>
      (match skipWsJson rest with
       | ']' :: r2 => some (.jarr [], r2)
       | r2 =>
         match parseJArrayItems fuel r2 with
         | some (xs, r3) => some (.jarr xs, r3)
         | none => none)
    | '\x7b' :: rest =>
      (match skipWsJson rest with
       | '\x7d' :: r2 => some (.jobj [], r2)
       | r2 =>
         match parseJObjectItems fuel r2 with
         | some (fs, r3) => some (.jobj fs, r3)
         | none => none)
    | rest =>
      match parseJNumber rest with
      | some (v, r) => some (.jnum v, r)
      | none => none

/-- One or more comma-separated array items followed by the closing
bracket. -/
def parseJArrayItems : Nat → List Char → Option (List JValue × List Char)
  | 0, _ => none
  | Nat.succ fuel, cs =>
    match parseJValue fuel cs with
    | none => none
    | some (v, r1) =>
      match skipWsJson r1 with
      | ',' :: r2 =>
        (match parseJArrayItems fuel r2 with
         | some (xs, r3) => some (v :: xs, r3)
         | none => none)
      | ']' :: r2 => some ([v], r2)
      | _ => none

/-- One or more comma-separated object members followed by the closing
brace. -/
def parseJObjectItems : Nat → List Char → Option (List (String × JValue) × List Char)
  | 0, _ => none
  | Nat.succ fuel, cs =>
    match skipWsJson cs with
    | '"' :: r1 =>
      (match parseJStringChars r1 with
       | none => none
       | some (kcs, r2) =>
         match skipWsJson r2 with
         | ':' :: r3 =>
           (match parseJValue fuel r3 with
            | none => none
            | some (v, r4) =>
              match skipWsJson r4 with
              | ',' :: r5 =>
                (match parseJObjectItems fuel r5 with
                 | some (fs, r6) => some ((String.mk kcs, v) :: fs, r6)
                 | none => none)
              | '\x7d' :: r5 => some ([(String.mk kcs, v)], r5)
              | _ => none)
         | _ => none)
    | _ => none

end

/-- JSON.parse on a whole string: one value with only whitespace after
it. The fuel is ample, since every two nested calls consume at least one
character. -/
def jsonParse (s : String) : Option JValue :=
  match parseJValue (s.length * 2 + 2) s.data with
  | some (v, rest) => if (skipWsJson rest).isEmpty then some v else none
  | none => none

/-- Property access on a parse result: objects yield the value of the
last field with that key, every other value yields undefined (none). -/
def lookupLast (fields : List (String × JValue)) (k : String) : Option JValue :=
  match fields with
  | [] => none
  | (k2, v) :: rest =>
    match lookupLast rest k with
    | some r => some r
    | none => if k2 = k then some v else none

def jGet : JValue → String → Option JValue
  | .jobj fs, k => lookupLast fs k
  | _, _ => none

/-- JavaScript truthiness of a JSON.parse result. -/
def jTruthy : JValue → Bool
  | .jnull => false
  | .jbool b => b
  | .jnum v => decide (v ≠ 0)
  | .jstr s => decide (s ≠ "")
  | .jarr _ => true
  | .jobj _ => true

/-! ## The data model of the route -/

inductive Mode
  | captions
  | bio
  deriving DecidableEq

structure CaptionItem where
  text : String
  hashtags : String
  deriving DecidableEq

structure BioItem where
  text : String
  deriving DecidableEq

def allowedTones : List String := ["funny", "poetic", "classy", "branded"]

def systemPrompt : String :=
  "You are Caption Coach, a sharp and safe social media copywriter. You write concise, engaging, brand-safe captions or short bios. Keep everything family-friendly and culturally respectful. Avoid medical/financial claims, controversial topics, and disallowed hashtags."

def maxCaptionGuidanceLength : Nat := 280
def minBioGuidanceLength : Nat := 10
def maxBioGuidanceLength : Nat := 400
def maxCharsMin : ℚ := 40
def maxCharsMax : ℚ := 220

def MAX_OPENAI_ATTEMPTS : Nat := 3

/-! ## The payload parsers -/

/-- One entry of a captions reply: reject a falsy entry or one whose text
or hashtags field is not a string, and trim both. -/
def checkCaptionItem (v : JValue) : Option CaptionItem :=
  if jTruthy v = false then none
  else
    match jGet v "text", jGet v "hashtags" with
    | some (.jstr t), some (.jstr h) => some { text := jsTrim t, hashtags := jsTrim h }
    | _, _ => none

/-- parseCaptionsPayload: JSON.parse the raw text, require a truthy items
array of exactly 5 entries, and check every entry. A parse or shape
failure is a thrown error, modelled as none. -/
def parseCaptionsPayload (raw : String) : Option (List CaptionItem) :=
  match jsonParse raw with
  | none => none
  | some parsed =>
    match jGet parsed "items" with
    | none => none
    | some itemsV =>
      if jTruthy itemsV = false then none
      else
        match itemsV with
        | .jarr items =>
          if items.length ≠ 5 then none
          else mapMOpt checkCaptionItem items
        | _ => none

/-- One entry of a bio reply: reject a falsy entry or one whose text
field is not a string, and trim it. -/
def checkBioItem (v : JValue) : Option BioItem :=
  if jTruthy v = false then none
  else
    match jGet v "text" with
    | some (.jstr t) => some { text := jsTrim t }
    | _ => none

/-- parseBioPayload: JSON.parse the raw text, require a truthy items
array of exactly 3 entries, and check every entry. -/
def parseBioPayload (raw : String) : Option (List BioItem) :=
  match jsonParse raw with
  | none => none
  | some parsed =>
    match jGet parsed "items" with
    | none => none
    | some itemsV =>
      if jTruthy itemsV = false then none
      else
        match itemsV with
        | .jarr items =>
          if items.length ≠ 3 then none
          else mapMOpt checkBioItem items
        | _ => none

/-! ## The fallback catalog -/

def buildFallbackCaptions : List CaptionItem :=
  [{ text := "Fresh perspective coming your way—stay tuned for the full story behind this shot.",
     hashtags := "#behindthescenes #brandmoments #staytuned #socialready #captioncoach #storyteaser #creativepulse #shareworthy" },
   { text := "Setting the scene with style while we polish the perfect caption for your feed.",
     hashtags := "#freshcaption #feedgoals #styleinspo #captioncoach #brandvibes #contentcrew #socialspark #stayready" },
   { text := "A dose of personality is on deck—your tailored caption will land the moment the coach is ready.",
     hashtags := "#captionscoming #brandvoice #socialenergy #captioncoach #contentmagic #creativeflow #onbrand #watchthisspace" },
   { text := "We are lining up details that hit the right tone—this placeholder keeps the post warm.",
     hashtags := "#tonecheck #brandready #captioncoach #socialsuite #creativeprep #marketingmadeeasy #contentqueue #comingsoon" },
   { text := "This space is saving your prime caption real estate while the coach finalizes the perfect copy.",
     hashtags := "#captioncoach #socialcaption #brandspotlight #contentstudio #marketingflow #creativeprep #stayposted #copyinprogress" }]

def buildFallbackBios : List BioItem :=
  [{ text := "Creating feel-good moments while celebrating the details that make this story unique." },
   { text := "Sharing the highlights with warmth, purpose, and a spark of personality in every line." },
   { text := "Telling the brand story with heart, clarity, and a voice that feels true to you." }]

/-! ## The provider gateway (callOpenAI)

One invocation of callOpenAI makes up to MAX_OPENAI_ATTEMPTS raw
attempts. The outcome of each raw attempt is given by an oracle: either
the message content of the completion reply or a thrown error. -/

/-- An error surfaced by a provider attempt or by the handler. -/
structure ApiErr where
  /-- The HTTP status the APIError carries, when it has one. -/
  status : Option Nat
  /-- Whether the error is an instance of the RateLimitError subclass. -/
  isRateLimitInstance : Bool
  /-- The parsed retry-after header in seconds: none stands for a missing
  header or one that does not parse to a finite number. -/
  retryAfterSeconds : Option ℚ
  deriving DecidableEq

inductive ThrownError
  /-- An OpenAI.APIError (RateLimitError included). -/
  | api (e : ApiErr)
  /-- The plain Error given when the reply has no message content. -/
  | emptyResponse
  /-- The plain Error given when the loop ends with no recorded error;
  unreachable while MAX_OPENAI_ATTEMPTS is positive. -/
  | requestFailed
  deriving DecidableEq

/-- One part of array-shaped message content: a plain string or an
object with an optional text field. -/
inductive RawPart
  | partStr (s : String)
  | partObj (text : Option String)
  deriving DecidableEq

/-- The message content of a completion reply: missing, a string, an
array of parts, or some other truthy value rendered by String(). -/
inductive RawContent
  | noContent
  | rawStr (s : String)
  | rawParts (ps : List RawPart)
  | rawOther (s : String)
  deriving DecidableEq

/-- The outcome of one raw attempt: a reply, or a thrown error. -/
inductive AttemptResult
  | reply (c : RawContent)
  | raise (e : ThrownError)
  deriving DecidableEq

/-- The result of one callOpenAI invocation, or of one attempt. -/
inductive GwOutcome
  | ok (s : String)
  | err (e : ThrownError)
  deriving DecidableEq

/-- Whether a caught error is treated as a rate limit: an instance of
RateLimitError, or a status property equal to 429. -/
def isRateLimitErr : ThrownError → Bool
  | .api e => e.isRateLimitInstance || e.status = some 429
  | _ => false

/-- The advisory retry-after of a caught error, reachable only on api
errors. -/
def retryAfterOf : ThrownError → Option ℚ
  | .api e => e.retryAfterSeconds
  | _ => none

/-- The backoff the loop sleeps after a non-final rate-limited attempt:
the advisory value when finite and positive, else 20 seconds. -/
def waitSeconds (e : ThrownError) : ℚ :=
  match retryAfterOf e with
  | some r => if 0 < r then r else 20
  | none => 20

/-- The sleep duration in milliseconds. -/
def waitMs (e : ThrownError) : ℚ := waitSeconds e * 1000

/-- Rendering of one content part, as in the attempt body: a string part
stands for itself, an object part for its text field when present and
truthy, else the empty string. -/
def renderPart : RawPart → String
  | .partStr s => s
  | .partObj t =>
    match t with
    | some s => if s = "" then "" else s
    | none => ""

/-- The try body of one attempt: a falsy content (missing or the empty
string) throws the empty-response error; a string is trimmed and
returned; an array is rendered, joined with newlines and trimmed; any
other content is rendered by String() and trimmed. -/
def attemptStep : AttemptResult → GwOutcome
  | .raise e => .err e
  | .reply .noContent => .err .emptyResponse
  | .reply (.rawStr s) => if s = "" then .err .emptyResponse else .ok (jsTrim s)
  | .reply (.rawParts ps) => .ok (jsTrim (String.intercalate "\n" (ps.map renderPart)))
  | .reply (.rawOther s) => .ok (jsTrim s)

/-- What one callOpenAI invocation did: how many raw attempts it
consumed, which sleeps it performed (in milliseconds, in order), and its
outcome. -/
structure GatewayRun where
  attemptsUsed : Nat
  sleeps : List ℚ
  outcome : GwOutcome
  deriving DecidableEq

/-- The attempt loop of callOpenAI. The fuel counts the attempts still
allowed, idx is the number of the current attempt, lastErr and sl carry
the recorded last error and the sleeps performed so far. -/
def gatewayGo (o : Nat → AttemptResult) : Nat → Nat → Option ThrownError → List ℚ → GatewayRun
  | 0, idx, lastErr, sl => ⟨idx - 1, sl.reverse, .err (lastErr.getD .requestFailed)⟩
  | Nat.succ fuel, idx, _, sl =>
    match attemptStep (o idx) with
    | .ok s => ⟨idx, sl.reverse, .ok s⟩
    | .err e =>
      if isRateLimitErr e then
        if fuel = 0 then ⟨idx, sl.reverse, .err e⟩
        else gatewayGo o fuel (idx + 1) (some e) (waitMs e :: sl)
      else ⟨idx, sl.reverse, .err e⟩

/-- callOpenAI, with the outcome of raw attempt i given by o i (i counts
from 1). A success returns the extracted text at once; a rate-limited
failure sleeps and retries unless it was the final attempt; any other
failure is thrown at once; an exhausted loop throws the last error. -/
def callOpenAI (o : Nat → AttemptResult) : GatewayRun :=
  gatewayGo o MAX_OPENAI_ATTEMPTS 1 none []

/-! ## The request, the prompt messages and the response -/

/-- A file in the multipart form; the content is carried as the base64
rendering of its bytes (the Buffer encoding step is a builtin and only
this rendering is observable in the prompt). -/
structure FileData where
  type : String
  size : Nat
  contentBase64 : String
  deriving DecidableEq

/-- What formData.get returns when the field is present: a string value
or a file. -/
inductive FormValue
  | str (s : String)
  | file (f : FileData)
  deriving DecidableEq

/-- The fields the handler reads from the multipart form. -/
structure FormData where
  mode : Option FormValue
  tone : Option FormValue
  guidance : Option FormValue
  maxChars : Option FormValue
  image : Option FormValue
  deriving DecidableEq

inductive ChatRole
  | system
  | user
  | assistant
  deriving DecidableEq

inductive ChatPart
  | textPart (t : String)
  | imagePart (url : String)
  deriving DecidableEq

inductive ChatContent
  | str (s : String)
  | parts (l : List ChatPart)
  deriving DecidableEq

structure ChatMessage where
  role : ChatRole
  content : ChatContent
  deriving DecidableEq

/-- The items of a response body, tagged by shape. -/
inductive ItemsPayload
  | captionItems (l : List CaptionItem)
  | bioItems (l : List BioItem)
  deriving DecidableEq

/-- A JSON response body: a mode with items, or an error object. -/
inductive ResponseBody
  | ok (mode : Mode) (items : ItemsPayload)
  | err (msg : String)
  deriving DecidableEq

/-- One callOpenAI invocation as observed from outside: the messages it
was given and what it did. -/
structure GatewayCall where
  messages : List ChatMessage
  run : GatewayRun
  deriving DecidableEq

/-- The observable result of one POST request: the HTTP status, the
body, and the provider calls that were made, in order. -/
structure PostResult where
  status : Nat
  body : ResponseBody
  calls : List GatewayCall
  deriving DecidableEq

def fallbackItems : Mode → ItemsPayload
  | .captions => .captionItems buildFallbackCaptions
  | .bio => .bioItems buildFallbackBios

def fallbackBody (m : Mode) : ResponseBody := .ok m (fallbackItems m)

/-! ## Validation and prompt building -/

/-- The mode field must be exactly the string captions or bio. -/
def modeOf (form : FormData) : Option Mode :=
  if form.mode = some (.str "captions") then some .captions
  else if form.mode = some (.str "bio") then some .bio
  else none

/-- Number.isInteger of a converted maxChars value. -/
def jsIsInteger : JSNum → Bool
  | .q v => v.den = 1
  | _ => false

/-- A JS comparison value < bound: false on NaN, true on negative
infinity. -/
def jsLtNum : JSNum → ℚ → Bool
  | .q v, c => decide (v < c)
  | .neginf, _ => true
  | _, _ => false

/-- A JS comparison value > bound: false on NaN, true on positive
infinity. -/
def jsGtNum : JSNum → ℚ → Bool
  | .q v, c => decide (c < v)
  | .inf, _ => true
  | _, _ => false

/-- The maxChars guard: present but not an integer, or out of
[maxCharsMin, maxCharsMax], is invalid input. -/
def maxCharsRejected : Option JSNum → Bool
  | none => false
  | some j => !(jsIsInteger j) || jsLtNum j maxCharsMin || jsGtNum j maxCharsMax

/-- The string shown for the optional maxChars in a prompt; validation
has already forced an integer when it is present. -/
def jsDisplay : Option JSNum → String
  | none => "none"
  | some (.q v) => toString v.num
  | some .nan => "NaN"
  | some .inf => "Infinity"
  | some .neginf => "-Infinity"

/-- charAt(0).toUpperCase() concatenated with slice(1). -/
def capFirst (s : String) : String :=
  match s.data with
  | [] => ""
  | c :: cs => String.mk (c.toUpper :: cs)

def dataUrl (f : FileData) : String :=
  "data:" ++ f.type ++ ";base64," ++ f.contentBase64

/-- The captions instruction text, line for line from the source. -/
def captionsInstruction (tone : String) (guidance : String) (maxChars : Option JSNum) : String :=
  String.intercalate "\n"
    ["Task: Create exactly FIVE distinct, platform-ready captions for the provided image with the chosen tone and optional character limit. If guidance is provided, weave it naturally.",
     "",
     "Parameters:",
     "- Tone: " ++ capFirst tone,
     "- Max characters: " ++ jsDisplay maxChars,
     "- Guidance (optional): " ++ (if guidance = "" then "none" else guidance),
     "",
     "Constraints for each caption:",
     "- One sentence only. If Max characters is set, do not exceed it.",
     "- Avoid emoji unless Tone=Funny (max 2).",
     "- No brand claims or sensitive content.",
     "- Make the five captions meaningfully different in angle (humor, vibe, CTA).",
     "- If Guidance is provided, incorporate it naturally in at least two captions.",
     "",
     "Hashtags:",
     "- After each caption, create one line with 8–12 relevant hashtags.",
     "- Lowercase; no spammy/banned tags; avoid repetition.",
     "",
     "Output EXACTLY in JSON:",
     "\x7b",
     "  \"items\": [",
     "    \x7b \"text\": \"caption #1\", \"hashtags\": \"#tag1 #tag2 #tag3 ...\" \x7d,",
     "    \x7b \"text\": \"caption #2\", \"hashtags\": \"...\" \x7d,",
     "    \x7b \"text\": \"caption #3\", \"hashtags\": \"...\" \x7d,",
     "    \x7b \"text\": \"caption #4\", \"hashtags\": \"...\" \x7d,",
     "    \x7b \"text\": \"caption #5\", \"hashtags\": \"...\" \x7d",
     "  ]",
     "\x7d"]

/-- The bio instruction text, line for line from the source. -/
def bioInstruction (effectiveTone : String) (guidance : String) (maxChars : Option JSNum) : String :=
  String.intercalate "\n"
    ["Task: Create exactly THREE concise, polished bios/captions crafted from the user\x27s About text.",
     "If a tone is provided, match it. Optionally respect a character limit.",
     "",
     "Parameters:",
     "- Tone (optional): " ++ capFirst effectiveTone,
     "- Max characters: " ++ jsDisplay maxChars,
     "- About: " ++ guidance,
     "",
     "Constraints:",
     "- Each output is one to two short sentences.",
     "- If Max characters is set, do not exceed it.",
     "- Keep it brand-safe, inclusive, and specific to the provided About text.",
     "- Vary the three options in angle (professional, personable, playful) while respecting Tone.",
     "",
     "Output EXACTLY in JSON:",
     "\x7b",
     "  \"items\": [",
     "    \x7b \"text\": \"bio #1\" \x7d,",
     "    \x7b \"text\": \"bio #2\" \x7d,",
     "    \x7b \"text\": \"bio #3\" \x7d",
     "  ]",
     "\x7d"]

def captionsMessages (tone : String) (guidance : String) (maxChars : Option JSNum)
    (f : FileData) : List ChatMessage :=
  [⟨.system, .str systemPrompt⟩,
   ⟨.user, .parts [.textPart (captionsInstruction tone guidance maxChars),
                   .imagePart (dataUrl f)]⟩]

def bioMessages (effectiveTone : String) (guidance : String) (maxChars : Option JSNum) :
    List ChatMessage :=
  [⟨.system, .str systemPrompt⟩,
   ⟨.user, .str (bioInstruction effectiveTone guidance maxChars)⟩]

/-- The effective tone of a bio request: the tone when truthy and
allowed, else classy. -/
def bioEffectiveTone (tone : Option String) : String :=
  match tone with
  | some s => if s ≠ "" ∧ allowedTones.contains s then s else "classy"
  | none => "classy"

/-- The captions-mode checks past the shared ones, in source order:
a falsy or disallowed tone, an over-long guidance, a missing non-file
image, a bad MIME type or an over-large file are invalid input;
otherwise the prompt messages are built. -/
def captionsPlan (tone : Option String) (guidance : String) (maxChars : Option JSNum)
    (image : Option FormValue) : Option (List ChatMessage) :=
  match tone with
  | none => none
  | some t =>
    if t = "" then none
    else if !(allowedTones.contains t) then none
    else if maxCaptionGuidanceLength < guidance.length then none
    else
      match image with
      | some (.file f) =>
        if !(["image/png", "image/jpeg"].contains f.type) then none
        else if 3 * 1024 * 1024 < f.size then none
        else some (captionsMessages t guidance maxChars f)
      | _ => none

/-- The bio-mode checks past the shared ones, in source order: a trimmed
guidance outside the bounds, or a truthy disallowed tone, is invalid
input; otherwise the prompt messages are built with the effective
tone. -/
def bioPlan (tone : Option String) (guidance : String) (maxChars : Option JSNum) :
    Option (List ChatMessage) :=
  if guidance.length < minBioGuidanceLength ∨ maxBioGuidanceLength < guidance.length then none
  else if (match tone with
           | some s => decide (s ≠ "") && !(allowedTones.contains s)
           | none => false) then none
  else some (bioMessages (bioEffectiveTone tone) guidance maxChars)

/-- The validation and prompt building that runs once a mode is known
and a key is present: extract tone (lower-cased when a string), guidance
(trimmed when a string, else empty) and maxChars (converted by Number
when a non-empty string), reject a bad maxChars, then apply the checks
of the mode. none is the invalid-input rejection. -/
def planFor (mode : Mode) (form : FormData) : Option (List ChatMessage) :=
  let tone : Option String :=
    match form.tone with
    | some (.str s) => some (jsToLower s)
    | _ => none
  let guidance : String :=
    match form.guidance with
    | some (.str s) => jsTrim s
    | _ => ""
  let maxChars : Option JSNum :=
    match form.maxChars with
    | some (.str s) => if 0 < s.length then some (jsNumber s) else none
    | _ => none
  if maxCharsRejected maxChars then none
  else
    match mode with
    | .captions => captionsPlan tone guidance maxChars form.image
    | .bio => bioPlan tone guidance maxChars

/-! ## The orchestrator -/

/-- The corrective instruction sent after an invalid reply; captions
mode sends it as a text part, bio mode as a plain string, and the
wording differs by one word. -/
def retryUserMessage : Mode → ChatMessage
  | .captions =>
    ⟨.user, .parts [.textPart "The previous reply was invalid. Respond again with VALID JSON matching the exact schema. Include no commentary."]⟩
  | .bio =>
    ⟨.user, .str "The previous reply was invalid. Respond again with VALID JSON matching the schema. Include no commentary."⟩

/-- Parse a raw reply under the schema of the mode. -/
def parseFor : Mode → String → Option ItemsPayload
  | .captions, raw => (parseCaptionsPayload raw).map .captionItems
  | .bio, raw => (parseBioPayload raw).map .bioItems

/-- The top-level catch: an APIError with status 429 gives the fallback
when the mode is known and the 429 message otherwise; an APIError with
status 401 or 403 gives the credential error; anything else gives the
fallback when the mode is known and the generic 500 otherwise. -/
def handleCatch (mode : Option Mode) (e : ThrownError) : Nat × ResponseBody :=
  let fb : Option ResponseBody := mode.map fallbackBody
  match e with
  | .api a =>
    if a.status = some 429 then
      match fb with
      | some b => (200, b)
      | none => (429, .err "Easy there. Try again in a moment.")
    else if a.status = some 401 ∨ a.status = some 403 then
      (500, .err "Check your OpenAI credentials.")
    else
      match fb with
      | some b => (200, b)
      | none => (500, .err "Something went wrong")
  | _ =>
    match fb with
    | some b => (200, b)
    | none => (500, .err "Something went wrong")

/-- The generation phase shared by both modes: call the gateway on the
built messages; a thrown first call reaches the top-level catch; a reply
that parses is returned as the success body; a reply that does not parse
triggers exactly one corrective call whose own throw or parse failure
yields the fallback. The provider oracle takes the call index (0 the
initial call, 1 the corrective call) and the attempt number. -/
def runFlow (mode : Mode) (msgs : List ChatMessage)
    (provider : Nat → Nat → AttemptResult) : PostResult :=
  let run1 := callOpenAI (provider 0)
  match run1.outcome with
  | .err e =>
    let r := handleCatch (some mode) e
    ⟨r.1, r.2, [⟨msgs, run1⟩]⟩
  | .ok raw =>
    match parseFor mode raw with
    | some items => ⟨200, .ok mode items, [⟨msgs, run1⟩]⟩
    | none =>
      let rmsgs := msgs ++ [⟨.assistant, .str raw⟩, retryUserMessage mode]
      let run2 := callOpenAI (provider 1)
      match run2.outcome with
      | .err _ => ⟨200, fallbackBody mode, [⟨msgs, run1⟩, ⟨rmsgs, run2⟩]⟩
      | .ok raw2 =>
        match parseFor mode raw2 with
        | some items => ⟨200, .ok mode items, [⟨msgs, run1⟩, ⟨rmsgs, run2⟩]⟩
        | none => ⟨200, fallbackBody mode, [⟨msgs, run1⟩, ⟨rmsgs, run2⟩]⟩

/-- The POST handler: an unknown mode is invalid input; an absent
OPENAI_API_KEY returns the fallback for the mode at once, with no
provider call; a validation failure is invalid input; otherwise the
generation phase runs. hasApiKey is the truthiness of the environment
variable. -/
def POST (form : FormData) (hasApiKey : Bool) (provider : Nat → Nat → AttemptResult) :
    PostResult :=
  match modeOf form with
  | none => ⟨400, .err "Invalid input", []⟩
  | some mode =>
    if hasApiKey = false then ⟨200, fallbackBody mode, []⟩
    else
      match planFor mode form with
      | none => ⟨400, .err "Invalid input", []⟩
      | some msgs => runFlow mode msgs provider

/-! ## Gateway lemmas -/

theorem gatewayGo_used_le (o : Nat → AttemptResult) :
    ∀ (fuel idx : Nat) (le : Option ThrownError) (sl : List ℚ),
      (gatewayGo o fuel idx le sl).attemptsUsed ≤ idx - 1 + fuel := by
  intro fuel
  induction fuel with
  | zero => intro idx le sl; simp [gatewayGo]
  | succ fuel ih =>
    intro idx le sl
    unfold gatewayGo
    cases attemptStep (o idx) with
    | ok s => dsimp only; omega
    | err e =>
      dsimp only
      by_cases hrl : isRateLimitErr e
      · rw [if_pos hrl]
        by_cases hf : fuel = 0
        · rw [if_pos hf]; dsimp only; omega
        · rw [if_neg hf]
          calc (gatewayGo o fuel (idx + 1) (some e) (waitMs e :: sl)).attemptsUsed
              ≤ (idx + 1) - 1 + fuel := ih (idx + 1) (some e) (waitMs e :: sl)
            _ ≤ idx - 1 + (fuel + 1) := by omega
      · rw [if_neg hrl]; dsimp only; omega

theorem gatewayGo_success (o : Nat → AttemptResult) (fuel idx : Nat)
    (le : Option ThrownError) (sl : List ℚ) (s : String) (hf : fuel ≠ 0)
    (h : attemptStep (o idx) = .ok s) :
    gatewayGo o fuel idx le sl = ⟨idx, sl.reverse, .ok s⟩ := by
  cases fuel with
  | zero => exact absurd rfl hf
  | succ fuel => unfold gatewayGo; rw [h]

theorem gatewayGo_err_noRL (o : Nat → AttemptResult) (fuel idx : Nat)
    (le : Option ThrownError) (sl : List ℚ) (e : ThrownError) (hf : fuel ≠ 0)
    (h : attemptStep (o idx) = .err e) (hrl : isRateLimitErr e = false) :
    gatewayGo o fuel idx le sl = ⟨idx, sl.reverse, .err e⟩ := by
  cases fuel with
  | zero => exact absurd rfl hf
  | succ fuel =>
    unfold gatewayGo
    rw [h]
    dsimp only
    rw [hrl]
    simp

theorem gatewayGo_rl_step (o : Nat → AttemptResult) (fuel idx : Nat)
    (le : Option ThrownError) (sl : List ℚ) (e : ThrownError)
    (h : attemptStep (o idx) = .err e) (hrl : isRateLimitErr e = true) :
    gatewayGo o (fuel + 2) idx le sl =
      gatewayGo o (fuel + 1) (idx + 1) (some e) (waitMs e :: sl) := by
  conv_lhs => rw [show fuel + 2 = Nat.succ (fuel + 1) from rfl]; unfold gatewayGo
  rw [h]
  dsimp only
  rw [hrl]
  simp

theorem gatewayGo_one_err (o : Nat → AttemptResult) (idx : Nat)
    (le : Option ThrownError) (sl : List ℚ) (e : ThrownError)
    (h : attemptStep (o idx) = .err e) :
    gatewayGo o 1 idx le sl = ⟨idx, sl.reverse, .err e⟩ := by
  show gatewayGo o (Nat.succ 0) idx le sl = _
  unfold gatewayGo
  rw [h]
  dsimp only
  by_cases hrl : isRateLimitErr e
  · rw [if_pos hrl]; simp
  · rw [if_neg hrl]

/-! ## Response shape -/

/-- The shape invariant of a success body: the items match the mode and
have the required count, 5 caption items or 3 bio items, every one of
which (by construction of the item types) carries the required string
fields. -/
def responseShapeOk : ResponseBody → Bool
  | .ok .captions (.captionItems l) => l.length = 5
  | .ok .bio (.bioItems l) => l.length = 3
  | _ => false

theorem fallbackBody_shape (m : Mode) : responseShapeOk (fallbackBody m) = true := by
  cases m <;> rfl

theorem parseCaptionsPayload_length (raw : String) (l : List CaptionItem)
    (h : parseCaptionsPayload raw = some l) : l.length = 5 := by
  unfold parseCaptionsPayload at h
  split at h
  · exact absurd h (by simp)
  · split at h
    · exact absurd h (by simp)
    · split at h
      · exact absurd h (by simp)
      · split at h
        next items heq htr =>
          split at h
          · exact absurd h (by simp)
          next hlen =>
            have h5 := mapMOpt_length checkCaptionItem items l h
            omega
        next => exact absurd h (by simp)

theorem parseBioPayload_length (raw : String) (l : List BioItem)
    (h : parseBioPayload raw = some l) : l.length = 3 := by
  unfold parseBioPayload at h
  split at h
  · exact absurd h (by simp)
  · split at h
    · exact absurd h (by simp)
    · split at h
      · exact absurd h (by simp)
      · split at h
        next items heq htr =>
          split at h
          · exact absurd h (by simp)
          next hlen =>
            have h3 := mapMOpt_length checkBioItem items l h
            omega
        next => exact absurd h (by simp)

theorem parseFor_shape (mode : Mode) (raw : String) (items : ItemsPayload)
    (h : parseFor mode raw = some items) : responseShapeOk (.ok mode items) = true := by
  cases mode with
  | captions =>
    simp only [parseFor, Option.map_eq_some'] at h
    obtain ⟨l, hl, hi⟩ := h
    subst hi
    simp [responseShapeOk, parseCaptionsPayload_length raw l hl]
  | bio =>
    simp only [parseFor, Option.map_eq_some'] at h
    obtain ⟨l, hl, hi⟩ := h
    subst hi
    simp [responseShapeOk, parseBioPayload_length raw l hl]

theorem handleCatch_shape (m : Mode) (e : ThrownError)
    (h : (handleCatch (some m) e).1 = 200) :
    responseShapeOk (handleCatch (some m) e).2 = true := by
  cases e with
  | api a =>
    by_cases h429 : a.status = some 429
    · show responseShapeOk (handleCatch (some m) (.api a)).2 = true
      unfold handleCatch
      dsimp only [Option.map]
      rw [if_pos h429]
      exact fallbackBody_shape m
    · by_cases hauth : a.status = some 401 ∨ a.status = some 403
      · exfalso
        unfold handleCatch at h
        dsimp only [Option.map] at h
        rw [if_neg h429, if_pos hauth] at h
        exact absurd h (by decide)
      · show responseShapeOk (handleCatch (some m) (.api a)).2 = true
        unfold handleCatch
        dsimp only [Option.map]
        rw [if_neg h429, if_neg hauth]
        exact fallbackBody_shape m
  | emptyResponse => exact fallbackBody_shape m
  | requestFailed => exact fallbackBody_shape m

theorem runFlow_shape (mode : Mode) (msgs : List ChatMessage)
    (provider : Nat → Nat → AttemptResult) :
    (runFlow mode msgs provider).status = 200 →
      responseShapeOk (runFlow mode msgs provider).body = true := by
  unfold runFlow
  dsimp only
  cases h1 : (callOpenAI (provider 0)).outcome with
  | err e => intro h; exact handleCatch_shape mode e h
  | ok raw =>
    dsimp only
    cases hp : parseFor mode raw with
    | some items => intro _; exact parseFor_shape mode raw items hp
    | none =>
      dsimp only
      cases h2 : (callOpenAI (provider 1)).outcome with
      | err e2 => intro _; exact fallbackBody_shape mode
      | ok raw2 =>
        dsimp only
        cases hp2 : parseFor mode raw2 with
        | some items2 => intro _; exact parseFor_shape mode raw2 items2 hp2
        | none => intro _; exact fallbackBody_shape mode

/-- Every 200-status response of the handler satisfies the shape
invariant of its mode, over every form, key configuration and provider
behavior. -/
theorem post_status200_shape (form : FormData) (hasApiKey : Bool)
    (provider : Nat → Nat → AttemptResult) :
    (POST form hasApiKey provider).status = 200 →
      responseShapeOk (POST form hasApiKey provider).body = true := by
  unfold POST
  cases hm : modeOf form with
  | none => intro h; simp at h
  | some mode =>
    dsimp only
    by_cases hk : hasApiKey = false
    · rw [if_pos hk]
      intro _
      exact fallbackBody_shape mode
    · rw [if_neg hk]
      cases hplan : planFor mode form with
      | none => intro h; simp at h
      | some msgs => exact runFlow_shape mode msgs provider

/-! ## Concrete fixtures for closed checks -/

/-- A valid bio-mode form. -/
def wBioForm : FormData :=
  { mode := some (.str "bio"), tone := none,
    guidance := some (.str "Sharing daily coffee rituals"),
    maxChars := none, image := none }

/-- A valid captions-mode form with a small PNG. -/
def wCapForm : FormData :=
  { mode := some (.str "captions"), tone := some (.str "funny"),
    guidance := none, maxChars := none,
    image := some (.file ⟨"image/png", 1000, "QUJD"⟩) }

def wBio39Form : FormData := { wBioForm with maxChars := some (.str "39") }
def wCap39Form : FormData := { wCapForm with maxChars := some (.str "39") }
def wBio220Form : FormData := { wBioForm with maxChars := some (.str "220") }
def wWeatherForm : FormData := { wBioForm with mode := some (.str "weather") }

/-- A well-formed bio reply. -/
def goodBioJson : String :=
  "\x7b\"items\":[\x7b\"text\":\"a\"\x7d,\x7b\"text\":\"b\"\x7d,\x7b\"text\":\"c\"\x7d]\x7d"

/-- A bio reply that parses and passes the schema although its third
text is blank. -/
def emptyTextBioJson : String :=
  "\x7b\"items\":[\x7b\"text\":\"a\"\x7d,\x7b\"text\":\"b\"\x7d,\x7b\"text\":\" \"\x7d]\x7d"

def pGood : Nat → Nat → AttemptResult := fun _ _ => .reply (.rawStr goodBioJson)
def pBad : Nat → Nat → AttemptResult := fun _ _ => .reply (.rawStr "nope")
def pEmpty : Nat → Nat → AttemptResult := fun _ _ => .reply .noContent
def p401 : Nat → Nat → AttemptResult := fun _ _ => .raise (.api ⟨some 401, false, none⟩)
def pMixed : Nat → Nat → AttemptResult :=
  fun c _ => if c = 0 then .reply (.rawStr "nope") else .raise (.api ⟨some 401, false, none⟩)
def pEmptyText : Nat → Nat → AttemptResult := fun _ _ => .reply (.rawStr emptyTextBioJson)

/-! ## The claims -/

/-- Claim C1: for every request that yields a 200-status response,
provider-sourced or fallback-sourced, the items of the body have exactly
5 entries with text and hashtags string fields in captions mode and
exactly 3 entries with a text string field in bio mode; the shape
invariant holds on every successful and every fallback path. -/
theorem claim1_response_shape_invariant (form : FormData) (hasApiKey : Bool)
    (provider : Nat → Nat → AttemptResult) :
    (POST form hasApiKey provider).status = 200 →
      responseShapeOk (POST form hasApiKey provider).body = true :=
  post_status200_shape form hasApiKey provider

theorem claim1_witness :
    (POST wBioForm false pEmpty).status = 200 ∧
    responseShapeOk (POST wBioForm false pEmpty).body = true :=
  ⟨rfl, claim1_response_shape_invariant wBioForm false pEmpty rfl⟩

/-- Claim C6: with a valid mode and no OPENAI_API_KEY, the handler
returns the static fallback for the resolved mode at 200, making no
provider call and skipping prompting, generation and parsing. -/
theorem claim6_missing_key_fallback (form : FormData)
    (provider : Nat → Nat → AttemptResult) (mode : Mode)
    (hm : modeOf form = some mode) :
    POST form false provider = ⟨200, fallbackBody mode, []⟩ := by
  unfold POST
  rw [hm]
  rfl

theorem claim6_witness :
    POST wBioForm false pGood = ⟨200, fallbackBody Mode.bio, []⟩ :=
  claim6_missing_key_fallback wBioForm pGood Mode.bio rfl

/-- Claim C9: a mode field that is not exactly the string captions or
bio is rejected with 400 and the invalid-input body, and no provider
call is made. -/
theorem claim9_invalid_mode_rejected (form : FormData) (hasApiKey : Bool)
    (provider : Nat → Nat → AttemptResult)
    (h1 : form.mode ≠ some (.str "captions")) (h2 : form.mode ≠ some (.str "bio")) :
    POST form hasApiKey provider = ⟨400, .err "Invalid input", []⟩ := by
  unfold POST
  have hm : modeOf form = none := by
    unfold modeOf
    rw [if_neg h1, if_neg h2]
  rw [hm]

theorem claim9_witness :
    POST wWeatherForm true pGood = ⟨400, .err "Invalid input", []⟩ :=
  claim9_invalid_mode_rejected wWeatherForm true pGood (by decide) (by decide)

/-- Claim C10: in bio mode a tone field equal to the empty string is not
rejected on account of tone, the effective tone is classy, and the
behavior is identical to an absent tone field. -/
theorem claim10_empty_tone_bio (form : FormData) (hasApiKey : Bool)
    (provider : Nat → Nat → AttemptResult)
    (hm : form.mode = some (.str "bio")) :
    POST { form with tone := some (.str "") } hasApiKey provider =
      POST { form with tone := none } hasApiKey provider ∧
    bioEffectiveTone (some "") = "classy" ∧ bioEffectiveTone none = "classy" := by
  refine ⟨?_, rfl, rfl⟩
  have hmode1 : modeOf { form with tone := some (.str "") } = some Mode.bio := by
    simp [modeOf, hm]
  have hmode2 : modeOf { form with tone := none } = some Mode.bio := by
    simp [modeOf, hm]
  have hplan : planFor Mode.bio { form with tone := some (.str "") } =
      planFor Mode.bio { form with tone := none } := by
    unfold planFor
    dsimp only
    rfl
  unfold POST
  rw [hmode1, hmode2]
  dsimp only
  rw [hplan]

theorem claim10_witness :
    POST { wBioForm with tone := some (.str "") } true pGood =
      POST { wBioForm with tone := none } true pGood ∧
    bioEffectiveTone (some "") = "classy" ∧ bioEffectiveTone none = "classy" :=
  claim10_empty_tone_bio wBioForm true pGood rfl

/-- Whether the corrective second call fails: it throws, or its reply
fails parsing. -/
def secondAttemptFails (mode : Mode) (provider : Nat → Nat → AttemptResult) : Bool :=
  match (callOpenAI (provider 1)).outcome with
  | .err _ => true
  | .ok raw2 => (parseFor mode raw2).isNone

/-- Claim C2: when the first provider reply of a validated request fails
schema parsing, exactly one corrective call is issued, whose messages
are the original messages plus the invalid assistant reply plus the
respond-again-with-valid-JSON-no-commentary instruction; and when the
second call throws or its reply fails parsing too, the response is the
static fallback of the active mode at status 200. -/
theorem claim2_corrective_reprompt (form : FormData)
    (provider : Nat → Nat → AttemptResult) (mode : Mode)
    (msgs : List ChatMessage) (raw : String)
    (hm : modeOf form = some mode)
    (hplan : planFor mode form = some msgs)
    (h1 : (callOpenAI (provider 0)).outcome = .ok raw)
    (hp : parseFor mode raw = none) :
    (POST form true provider).calls =
      [⟨msgs, callOpenAI (provider 0)⟩,
       ⟨msgs ++ [⟨.assistant, .str raw⟩, retryUserMessage mode], callOpenAI (provider 1)⟩] ∧
    (secondAttemptFails mode provider = true →
      POST form true provider =
        ⟨200, fallbackBody mode,
         [⟨msgs, callOpenAI (provider 0)⟩,
          ⟨msgs ++ [⟨.assistant, .str raw⟩, retryUserMessage mode],
           callOpenAI (provider 1)⟩]⟩) := by
  unfold POST
  rw [hm]
  dsimp only
  rw [if_neg (by decide : ¬(true = false)), hplan]
  dsimp only
  unfold runFlow
  dsimp only
  rw [h1]
  dsimp only
  rw [hp]
  dsimp only
  constructor
  · cases h2 : (callOpenAI (provider 1)).outcome with
    | err e2 => rfl
    | ok raw2 =>
      dsimp only
      cases hp2 : parseFor mode raw2 with
      | some items2 => rfl
      | none => rfl
  · intro hsf
    unfold secondAttemptFails at hsf
    cases h2 : (callOpenAI (provider 1)).outcome with
    | err e2 => rfl
    | ok raw2 =>
      rw [h2] at hsf
      dsimp only at hsf
      dsimp only
      cases hp2 : parseFor mode raw2 with
      | some items2 => rw [hp2] at hsf; simp at hsf
      | none => rfl

theorem claim2_witness :
    (POST wBioForm true pBad).status = 200 ∧
    (POST wBioForm true pBad).body = fallbackBody Mode.bio ∧
    (POST wBioForm true pBad).calls.length = 2 := by
  have h := claim2_corrective_reprompt wBioForm pBad Mode.bio
    (bioMessages "classy" "Sharing daily coffee rituals" none) "nope" rfl rfl rfl rfl
  have h2 := h.2 rfl
  rw [h2]
  exact ⟨rfl, rfl, rfl⟩

/-- Claim C3 counterexample: a valid bio request whose first generation
call throws an Unauthorized (401) APIError receives the 500 credential
error although the mode is known and a fallback exists, refuting the
claim that a known mode absorbs Unauthorized into fallback. -/
theorem claim3_counterexample :
    modeOf wBioForm = some Mode.bio ∧
    (POST wBioForm true p401).status = 500 ∧
    (POST wBioForm true p401).body = .err "Check your OpenAI credentials." :=
  ⟨rfl, rfl, rfl⟩

/-- Claim C3 amended: the credential 500 is produced exactly by an
Unauthorized (401 or 403) APIError thrown from the initial generation
call, with the mode known; an error of any kind thrown during the
corrective second call, Unauthorized included, is absorbed into the
fallback at 200. -/
theorem claim3_amended :
    (∀ (form : FormData) (provider : Nat → Nat → AttemptResult) (mode : Mode)
       (msgs : List ChatMessage) (a : ApiErr),
      modeOf form = some mode → planFor mode form = some msgs →
      (callOpenAI (provider 0)).outcome = .err (.api a) →
      (a.status = some 401 ∨ a.status = some 403) →
      POST form true provider =
        ⟨500, .err "Check your OpenAI credentials.",
         [⟨msgs, callOpenAI (provider 0)⟩]⟩) ∧
    (∀ (form : FormData) (provider : Nat → Nat → AttemptResult) (mode : Mode)
       (msgs : List ChatMessage) (raw : String) (e2 : ThrownError),
      modeOf form = some mode → planFor mode form = some msgs →
      (callOpenAI (provider 0)).outcome = .ok raw → parseFor mode raw = none →
      (callOpenAI (provider 1)).outcome = .err e2 →
      (POST form true provider).status = 200 ∧
      (POST form true provider).body = fallbackBody mode) := by
  constructor
  · intro form provider mode msgs a hm hplan h1 hauth
    unfold POST
    rw [hm]
    dsimp only
    rw [if_neg (by decide : ¬(true = false)), hplan]
    dsimp only
    unfold runFlow
    dsimp only
    rw [h1]
    dsimp only
    unfold handleCatch
    dsimp only [Option.map]
    have h429 : ¬(a.status = some 429) := by
      rcases hauth with h | h <;> rw [h] <;> decide
    rw [if_neg h429, if_pos hauth]
  · intro form provider mode msgs raw e2 hm hplan h1 hp h2
    unfold POST
    rw [hm]
    dsimp only
    rw [if_neg (by decide : ¬(true = false)), hplan]
    dsimp only
    unfold runFlow
    dsimp only
    rw [h1]
    dsimp only
    rw [hp]
    dsimp only
    rw [h2]
    exact ⟨rfl, rfl⟩

theorem claim3_witness :
    POST wBioForm true p401 =
      ⟨500, .err "Check your OpenAI credentials.",
       [⟨bioMessages "classy" "Sharing daily coffee rituals" none, callOpenAI (p401 0)⟩]⟩ ∧
    (POST wBioForm true pMixed).status = 200 ∧
    (POST wBioForm true pMixed).body = fallbackBody Mode.bio := by
  refine ⟨?_, ?_⟩
  · exact claim3_amended.1 wBioForm p401 Mode.bio
      (bioMessages "classy" "Sharing daily coffee rituals" none) ⟨some 401, false, none⟩
      rfl rfl rfl (Or.inl rfl)
  · exact claim3_amended.2 wBioForm pMixed Mode.bio
      (bioMessages "classy" "Sharing daily coffee rituals" none) "nope"
      (.api ⟨some 401, false, none⟩) rfl rfl rfl rfl rfl

/-- Claim C4 counterexample: a request with a valid mode and the
non-conforming maxChars value 39 is answered with 200 fallback content,
not 400, when the OPENAI_API_KEY is absent, because the no-key
short-circuit runs before the maxChars check; the claimed rejection is
therefore not unconditional. -/
theorem claim4_counterexample :
    modeOf wCap39Form = some Mode.captions ∧
    wCap39Form.maxChars = some (.str "39") ∧
    maxCharsRejected (some (jsNumber "39")) = true ∧
    (POST wCap39Form false pEmpty).status = 200 :=
  ⟨rfl, rfl, by decide, rfl⟩

/-- Claim C4 amended: when provider credentials are configured, a
request with a valid mode whose maxChars is present, non-empty and does
not convert to an integer in the interval 40 to 220 is rejected with 400
and the invalid-input body, in both modes and regardless of the other
fields; 39 converts below the interval, and 220 converts into it and is
accepted. The conversion includes binary64 rounding, so a literal such
as 40.000000000000000001 converts to the integer 40 and passes the
guard, as it does in JavaScript. -/
theorem claim4_amended :
    (∀ (form : FormData) (provider : Nat → Nat → AttemptResult) (mode : Mode) (s : String),
      modeOf form = some mode →
      form.maxChars = some (.str s) → 0 < s.length →
      (∀ n : ℤ, ¬(jsNumber s = .q (n : ℚ) ∧ 40 ≤ n ∧ n ≤ 220)) →
      POST form true provider = ⟨400, .err "Invalid input", []⟩) ∧
    jsNumber "39" = JSNum.q 39 ∧
    jsNumber "220" = JSNum.q 220 ∧
    maxCharsRejected (some (jsNumber "220")) = false ∧
    jsNumber "40.000000000000000001" = JSNum.q 40 ∧
    maxCharsRejected (some (jsNumber "40.000000000000000001")) = false ∧
    jsNumber "220.00000000000000001" = JSNum.q 220 ∧
    maxCharsRejected (some (jsNumber "220.00000000000000001")) = false ∧
    (POST wBio220Form true pGood).status = 200 := by
  refine ⟨?_, rfl, rfl, by decide, by decide, by decide, by decide, by decide, rfl⟩
  intro form provider mode s hm hmc hlen hnoint
  have hrej : maxCharsRejected (some (jsNumber s)) = true := by
    cases hj : jsNumber s with
    | nan => rfl
    | inf => rfl
    | neginf => rfl
    | q v =>
      by_cases hden : v.den = 1
      · have hv : ((v.num : ℤ) : ℚ) = v := by
          have hnd := Rat.num_div_den v
          rw [hden] at hnd
          simpa using hnd
        have hnv := hnoint v.num
        rw [hj] at hnv
        have hrange : ¬(40 ≤ v.num ∧ v.num ≤ 220) := by
          intro hr
          exact hnv ⟨by rw [hv], hr⟩
        have hcases : v.num < 40 ∨ 220 < v.num := by omega
        rcases hcases with hlt | hgt
        · have hq : v < maxCharsMin := by
            rw [← hv]
            unfold maxCharsMin
            exact_mod_cast hlt
          simp [maxCharsRejected, jsLtNum, hq]
        · have hq : maxCharsMax < v := by
            rw [← hv]
            unfold maxCharsMax
            exact_mod_cast hgt
          simp [maxCharsRejected, jsGtNum, hq]
      · simp [maxCharsRejected, jsIsInteger, hden]
  have hplanNone : planFor mode form = none := by
    unfold planFor
    rw [hmc]
    dsimp only
    rw [if_pos hlen]
    rw [if_pos hrej]
  unfold POST
  rw [hm]
  dsimp only
  rw [if_neg (by decide : ¬(true = false)), hplanNone]

theorem claim4_witness :
    POST wBio39Form true pEmpty = ⟨400, .err "Invalid input", []⟩ ∧
    POST wCap39Form true pEmpty = ⟨400, .err "Invalid input", []⟩ := by
  have hno : ∀ n : ℤ, ¬(jsNumber "39" = .q (n : ℚ) ∧ 40 ≤ n ∧ n ≤ 220) := by
    intro n h
    obtain ⟨h1, h2, h3⟩ := h
    have h39 : jsNumber "39" = JSNum.q 39 := rfl
    rw [h39] at h1
    have hq : (39 : ℚ) = (n : ℚ) := by
      injection h1
    have hn : n = 39 := by exact_mod_cast hq.symm
    omega
  exact ⟨claim4_amended.1 wBio39Form pEmpty Mode.bio "39" rfl rfl (by decide) hno,
         claim4_amended.1 wCap39Form pEmpty Mode.captions "39" rfl rfl (by decide) hno⟩

/-- Claim C5 counterexample: a valid bio request whose provider reply
passes the schema with a blank third text receives a 200 response whose
third item has empty trimmed text, refuting the claimed non-emptiness of
items in every 200 response. -/
theorem claim5_counterexample :
    (POST wBioForm true pEmptyText).status = 200 ∧
    (POST wBioForm true pEmptyText).body =
      .ok Mode.bio (.bioItems [⟨"a"⟩, ⟨"b"⟩, ⟨""⟩]) :=
  ⟨rfl, rfl⟩

/-- Claim C5 amended: every 200-status response carries exactly 5
caption items or 3 bio items with the required string fields, and every
fallback item has non-empty trimmed text (and hashtags); provider-sourced
items are trimmed but their non-emptiness is not enforced. -/
theorem claim5_amended :
    (∀ (form : FormData) (hasApiKey : Bool) (provider : Nat → Nat → AttemptResult),
      (POST form hasApiKey provider).status = 200 →
        responseShapeOk (POST form hasApiKey provider).body = true) ∧
    buildFallbackCaptions.all
      (fun i => decide (jsTrim i.text ≠ "") && decide (jsTrim i.hashtags ≠ "")) = true ∧
    buildFallbackBios.all (fun i => decide (jsTrim i.text ≠ "")) = true :=
  ⟨post_status200_shape, by decide, by decide⟩

theorem claim5_witness :
    (POST wCapForm false pEmpty).status = 200 ∧
    responseShapeOk (POST wCapForm false pEmpty).body = true :=
  ⟨rfl, claim5_amended.1 wCapForm false pEmpty rfl⟩

/-- Claim C7: one callOpenAI invocation performs at most three raw
attempts; a first attempt replying a non-empty string returns the
trimmed text at once with no sleep; and when rate-limited attempts
exhaust the loop, the error observed on the final attempt is raised
after the two recorded sleeps. -/
theorem claim7_gateway_attempt_bound :
    (∀ o : Nat → AttemptResult, (callOpenAI o).attemptsUsed ≤ MAX_OPENAI_ATTEMPTS) ∧
    (∀ (o : Nat → AttemptResult) (s : String),
      o 1 = .reply (.rawStr s) → s ≠ "" →
      callOpenAI o = ⟨1, [], .ok (jsTrim s)⟩) ∧
    (∀ (o : Nat → AttemptResult) (e1 e2 e3 : ThrownError),
      attemptStep (o 1) = .err e1 → isRateLimitErr e1 = true →
      attemptStep (o 2) = .err e2 → isRateLimitErr e2 = true →
      attemptStep (o 3) = .err e3 →
      callOpenAI o = ⟨3, [waitMs e1, waitMs e2], .err e3⟩) := by
  refine ⟨?_, ?_, ?_⟩
  · intro o
    have h := gatewayGo_used_le o 3 1 none []
    simpa [callOpenAI, MAX_OPENAI_ATTEMPTS] using h
  · intro o s ho hs
    have hstep : attemptStep (o 1) = .ok (jsTrim s) := by
      rw [ho]
      unfold attemptStep
      dsimp only
      rw [if_neg hs]
    have h := gatewayGo_success o 3 1 none [] (jsTrim s) (by decide) hstep
    simpa [callOpenAI, MAX_OPENAI_ATTEMPTS] using h
  · intro o e1 e2 e3 h1 hrl1 h2 hrl2 h3
    show gatewayGo o MAX_OPENAI_ATTEMPTS 1 none [] = _
    show gatewayGo o (1 + 2) 1 none [] = _
    rw [gatewayGo_rl_step o 1 1 none [] e1 h1 hrl1]
    show gatewayGo o (0 + 2) 2 (some e1) [waitMs e1] = _
    rw [gatewayGo_rl_step o 0 2 (some e1) [waitMs e1] e2 h2 hrl2]
    show gatewayGo o 1 3 (some e2) [waitMs e2, waitMs e1] = _
    rw [gatewayGo_one_err o 3 (some e2) [waitMs e2, waitMs e1] e3 h3]
    simp

def eRL : ThrownError := .api ⟨some 429, true, none⟩

def oRL : Nat → AttemptResult := fun _ => .raise eRL

theorem claim7_witness :
    (callOpenAI oRL).attemptsUsed ≤ MAX_OPENAI_ATTEMPTS ∧
    callOpenAI oRL = ⟨3, [20000, 20000], .err eRL⟩ := by
  constructor
  · exact claim7_gateway_attempt_bound.1 oRL
  · have h := claim7_gateway_attempt_bound.2.2 oRL eRL eRL eRL rfl rfl rfl rfl rfl
    rw [h]
    have hw : waitMs eRL = 20000 := by
      norm_num [waitMs, waitSeconds, retryAfterOf, eRL]
    rw [hw]

/-- Claim C8: a provider attempt that fails with anything other than a
rate-limit signal, an authorization failure and an empty reply included,
is propagated at once, consuming no further attempts and adding no
sleep; only a rate-limited failure on a non-final attempt sleeps and
tries again. -/
theorem claim8_gateway_immediate_propagation :
    (∀ (o : Nat → AttemptResult) (fuel idx : Nat) (le : Option ThrownError)
       (sl : List ℚ) (e : ThrownError),
      fuel ≠ 0 → attemptStep (o idx) = .err e → isRateLimitErr e = false →
      gatewayGo o fuel idx le sl = ⟨idx, sl.reverse, .err e⟩) ∧
    (∀ (o : Nat → AttemptResult) (e : ThrownError),
      attemptStep (o 1) = .err e → isRateLimitErr e = false →
      callOpenAI o = ⟨1, [], .err e⟩) ∧
    isRateLimitErr ThrownError.emptyResponse = false ∧
    (∀ (st : Option Nat) (ra : Option ℚ),
      (st = some 401 ∨ st = some 403) →
      isRateLimitErr (.api ⟨st, false, ra⟩) = false) ∧
    (∀ (o : Nat → AttemptResult) (fuel idx : Nat) (le : Option ThrownError)
       (sl : List ℚ) (e : ThrownError),
      attemptStep (o idx) = .err e → isRateLimitErr e = true →
      gatewayGo o (fuel + 2) idx le sl =
        gatewayGo o (fuel + 1) (idx + 1) (some e) (waitMs e :: sl)) := by
  refine ⟨gatewayGo_err_noRL, ?_, rfl, ?_, gatewayGo_rl_step⟩
  · intro o e h hrl
    have hg := gatewayGo_err_noRL o 3 1 none [] e (by decide) h hrl
    simpa [callOpenAI, MAX_OPENAI_ATTEMPTS] using hg
  · intro st ra hst
    rcases hst with h | h <;> rw [h] <;> simp [isRateLimitErr]

def e401 : ThrownError := .api ⟨some 401, false, none⟩

def o401 : Nat → AttemptResult := fun _ => .raise e401

def oEmpty : Nat → AttemptResult := fun _ => .reply .noContent

theorem claim8_witness :
    isRateLimitErr e401 = false ∧
    callOpenAI o401 = ⟨1, [], .err e401⟩ ∧
    callOpenAI oEmpty = ⟨1, [], .err .emptyResponse⟩ := by
  refine ⟨claim8_gateway_immediate_propagation.2.2.2.1 (some 401) none (Or.inl rfl), ?_, ?_⟩
  · exact claim8_gateway_immediate_propagation.2.1 o401 e401 rfl rfl
  · exact claim8_gateway_immediate_propagation.2.1 oEmpty .emptyResponse rfl rfl

end AICaption
